import Mathlib

/-!
Verification of the five HTTP services of the Career repository: the menu-driven
chatbot (src/chatbot/app.py), the tool-augmented mentor chat
(src/mentor/app.py), the MCQ generator (src/question/app.py), the resume
analysis pipeline (src/resume/resume_parser.py) and the career-path
recommender (src/skill_recommendation/).

Python strings are modelled as `List Char`; the external Groq completion
endpoint is an oracle parameter (the outcome of each outbound call is an
`Except` value supplied to the embedded function, in call order); Python
exceptions are `Except` errors.  `json.loads` is modelled by an executable
recursive-descent JSON parser (`jsonParse`) restricted to the forms the
analyzed texts use: objects, arrays, strings with the common escapes,
integers, `true`/`false`/`null`.
-/

/-! ## Python string primitives -/

/-- Whitespace as Python `str.strip()` sees it (the characters occurring in
the analyzed code paths). -/
def isWsChar (c : Char) : Bool := c = ' ' || c = '\t' || c = '\n' || c = '\r'

/-- Leading-whitespace removal (the left half of Python `str.strip()`). -/
def lstrip : List Char → List Char
  | [] => []
  | c :: cs => if isWsChar c then lstrip cs else c :: cs

/-- Trailing-whitespace removal (the right half of Python `str.strip()`). -/
def rstrip : List Char → List Char
  | [] => []
  | c :: cs =>
    let r := rstrip cs
    if r.isEmpty then (if isWsChar c then [] else [c]) else c :: r

/-- Python `str.strip()`. -/
def pyStrip (l : List Char) : List Char := rstrip (lstrip l)

/-- Python slice `s[:-n]`. -/
def dropRightN (l : List Char) (n : Nat) : List Char := l.take (l.length - n)

/-- Substring test, Python `needle in hay`. -/
def containsSub (needle : List Char) : List Char → Bool
  | [] => needle.isEmpty
  | c :: t => needle.isPrefixOf (c :: t) || containsSub needle t

/-! ## JSON values and a model of Python `json.loads`

`Json` models the values `json.loads` produces: `null`, booleans, numbers
(restricted to integers — the analyzed texts contain no floats), strings,
arrays and objects (association lists in textual order; `json.loads`
deduplicates repeated keys keeping the last, a corner no analyzed text
exercises). -/

inductive Json where
  | null
  | jbool (b : Bool)
  | num (n : Int)
  | str (s : List Char)
  | arr (elements : List Json)
  | obj (fields : List (List Char × Json))

/-- Longest leading run of decimal digits, and the rest. -/
def takeDigits : List Char → (List Char × List Char)
  | [] => ([], [])
  | c :: cs =>
    if c.isDigit then
      let p := takeDigits cs
      (c :: p.1, p.2)
    else ([], c :: cs)

def digitsVal (ds : List Char) : Nat := ds.foldl (fun a c => a * 10 + (c.toNat - 48)) 0

/-- JSON number parsing, integers only (no float appears in the analyzed texts). -/
def parseJNum : List Char → Option (Int × List Char)
  | [] => none
  | c :: cs =>
    if c = '-' then
      match takeDigits cs with
      | ([], _) => none
      | (ds, rest) => some (-(digitsVal ds : Int), rest)
    else
      match takeDigits (c :: cs) with
      | ([], _) => none
      | (ds, rest) => some ((digitsVal ds : Int), rest)

/-- JSON string body after the opening quote: content and rest after the
closing quote.  The escapes the analyzed texts could contain are decoded;
`\uXXXX`, `\b`, `\f` are not modelled (no analyzed text uses them). -/
def parseJString : List Char → Option (List Char × List Char)
  | [] => none
  | c :: cs =>
    if c = '"' then some ([], cs)
    else if c = '\\' then
      match cs with
      | [] => none
      | e :: cs' =>
        let dec : Option Char :=
          if e = '"' then some '"'
          else if e = '\\' then some '\\'
          else if e = '/' then some '/'
          else if e = 'n' then some '\n'
          else if e = 't' then some '\t'
          else if e = 'r' then some '\r'
          else none
        match dec with
        | none => none
        | some d =>
          match parseJString cs' with
          | none => none
          | some (s, rest) => some (d :: s, rest)
    else
      match parseJString cs with
      | none => none
      | some (s, rest) => some (c :: s, rest)

/-- Parser modes: a value, the elements of a non-empty array, or the fields
of a non-empty object. -/
inductive PMode where
  | pval
  | pelems
  | pfields

inductive PRes where
  | rval (j : Json)
  | relems (l : List Json)
  | rfields (l : List (List Char × Json))

/-- Recursive-descent JSON parser; the fuel argument only bounds recursion
depth and strictly decreases on every recursive call. -/
def parseJ : Nat → PMode → List Char → Option (PRes × List Char)
  | 0, _, _ => none
  | fuel + 1, .pval, s =>
    match lstrip s with
    | [] => none
    | c :: cs =>
      if c = 'n' then
        if ("ull".data).isPrefixOf cs then some (.rval .null, cs.drop 3) else none
      else if c = 't' then
        if ("rue".data).isPrefixOf cs then some (.rval (.jbool true), cs.drop 3) else none
      else if c = 'f' then
        if ("alse".data).isPrefixOf cs then some (.rval (.jbool false), cs.drop 4) else none
      else if c = '"' then
        match parseJString cs with
        | some (str, rest) => some (.rval (.str str), rest)
        | none => none
      else if c = '[' then
        match lstrip cs with
        | ']' :: rest => some (.rval (.arr []), rest)
        | _ =>
          match parseJ fuel .pelems cs with
          | some (.relems l, rest) => some (.rval (.arr l), rest)
          | _ => none
      else if c = '\x7b' then
        match lstrip cs with
        | '\x7d' :: rest => some (.rval (.obj []), rest)
        | _ =>
          match parseJ fuel .pfields cs with
          | some (.rfields l, rest) => some (.rval (.obj l), rest)
          | _ => none
      else if c = '-' || c.isDigit then
        match parseJNum (c :: cs) with
        | some (n, rest) => some (.rval (.num n), rest)
        | none => none
      else none
  | fuel + 1, .pelems, s =>
    match parseJ fuel .pval s with
    | some (.rval v, rest) =>
      (match lstrip rest with
       | ',' :: rest' =>
         (match parseJ fuel .pelems rest' with
          | some (.relems l, rest'') => some (.relems (v :: l), rest'')
          | _ => none)
       | ']' :: rest' => some (.relems [v], rest')
       | _ => none)
    | _ => none
  | fuel + 1, .pfields, s =>
    match lstrip s with
    | '"' :: cs =>
      (match parseJString cs with
       | some (k, rest) =>
         (match lstrip rest with
          | ':' :: rest' =>
            (match parseJ fuel .pval rest' with
             | some (.rval v, rest'') =>
               (match lstrip rest'' with
                | ',' :: r3 =>
                  (match parseJ fuel .pfields r3 with
                   | some (.rfields l, r4) => some (.rfields ((k, v) :: l), r4)
                   | _ => none)
                | '\x7d' :: r3 => some (.rfields [(k, v)], r3)
                | _ => none)
             | _ => none)
          | _ => none)
       | none => none)
    | _ => none

/-- Model of Python `json.loads`: parse one value, then require only
whitespace to remain. -/
def jsonParse (s : List Char) : Option Json :=
  match parseJ (2 * s.length + 2) .pval s with
  | some (.rval v, rest) => if (lstrip rest).isEmpty then some v else none
  | _ => none

/-- Python `d[key]` / `d.get(key)` on the fields of a parsed object. -/
def lookupAssoc : List (List Char × Json) → List Char → Option Json
  | [], _ => none
  | (k, v) :: rest, key => if k = key then some v else lookupAssoc rest key

/-- Python `d[key] = v`: replace the first binding of `key`, else append
(dict insertion order). -/
def setAssoc : List (List Char × Json) → List Char → Json → List (List Char × Json)
  | [], key, v => [(key, v)]
  | (k, w) :: rest, key, v =>
    if k = key then (key, v) :: rest else (k, w) :: setAssoc rest key v

/-! ## Response normalizers (fence stripping + JSON parse)

Three distinct implementations exist in the repository:
`clean_json_response` (src/resume/resume_parser.py 58-73), the regex cleanup
inside `MCQGeneratorAgent.generate_mcqs` (src/question/app.py 121-126), and
the inline cleanup in `CareerOrchestrator._parse_student_profile` /
`_generate_career_suggestions` (src/skill_recommendation/career_orchestrator.py
74-80 and 101-107). -/

/-- The fence-stripping of `clean_json_response` before the final
`.strip()`: `response.strip()`, drop a leading ```` ```json ```` else a bare
```` ``` ````, drop a trailing ```` ``` ````.  This is the value of the
`response` variable at the point of `json.loads(response.strip())`. -/
def midStripResume (response : List Char) : List Char :=
  let r1 := pyStrip response
  let r2 :=
    if ("```json".data).isPrefixOf r1 then r1.drop 7
    else if ("```".data).isPrefixOf r1 then r1.drop 3
    else r1
  if ("```".data).isSuffixOf r2 then dropRightN r2 3 else r2

/-- The full string transformation `clean_json_response` feeds to `json.loads`. -/
def cleanResumeStrip (response : List Char) : List Char := pyStrip (midStripResume response)

/-- Function `clean_json_response` (resume_parser.py 58-73); the raised
exception message carries the mid-stripped response text (the decode-error
detail is elided). -/
def clean_json_response (response : List Char) : Except (List Char) Json :=
  match jsonParse (cleanResumeStrip response) with
  | some j => .ok j
  | none =>
    .error ("Failed to parse JSON response: Response was: ".data ++ midStripResume response)

/-- The regex cleanup in `generate_mcqs` (question/app.py 122-123):
`re.sub("^```(?:json)?", "", raw)` removes ```` ```json ```` else ```` ``` ````
at position 0 only (no pre-trim); `re.sub("```$", "", ...)` removes one
```` ``` ```` at end-of-string or immediately before a final newline (Python
`$` without MULTILINE); then `.strip()`. -/
def mcqStrip (raw : List Char) : List Char :=
  let r1 :=
    if ("```json".data).isPrefixOf raw then raw.drop 7
    else if ("```".data).isPrefixOf raw then raw.drop 3
    else raw
  let r2 :=
    if ("```".data).isSuffixOf r1 then dropRightN r1 3
    else if ("```\n".data).isSuffixOf r1 then dropRightN r1 4 ++ ['\n']
    else r1
  pyStrip r2

/-- The inline cleanup of `_parse_student_profile` and
`_generate_career_suggestions` (career_orchestrator.py 74-79, 101-106):
`response.strip()`, drop a leading ```` ```json ```` (a bare ```` ``` ```` is
NOT handled), drop a trailing ```` ``` ````, final `.strip()` inside
`json.loads(response.strip())`. -/
def orchStrip (response : List Char) : List Char :=
  let r1 := pyStrip response
  let r2 := if ("```json".data).isPrefixOf r1 then r1.drop 7 else r1
  let r3 := if ("```".data).isSuffixOf r2 then dropRightN r2 3 else r2
  pyStrip r3

/-! ## Chatbot service (src/chatbot/app.py): menu/option router -/

structure NavOpt where
  id : String
  text : String
  page : String

/-- Table `knowledge_base["navigate_options"]` (chatbot/app.py 125-135). -/
def navigate_options : List NavOpt := [
  ⟨"go_dashboard", "🏠 Dashboard", "/dashboard"⟩,
  ⟨"go_career_paths", "🛤️ Career Paths", "/career-paths"⟩,
  ⟨"go_skills", "🎯 Skills Analysis", "/skills-analysis"⟩,
  ⟨"go_resume", "📄 Resume Builder", "/resume-builder"⟩,
  ⟨"go_jobs", "💼 Job Market", "/job-market"⟩,
  ⟨"go_mentorship", "👥 Mentorship", "/mentorship"⟩,
  ⟨"go_community", "🤝 Community", "/community"⟩,
  ⟨"go_profile", "👤 Profile", "/profile"⟩,
  ⟨"go_ats", "📊 ATS Analysis", "/ats"⟩]

structure PageInfo where
  path : String
  name : String
  description : String

/-- Table `knowledge_base["pages"]` (chatbot/app.py 48-94); the per-page `features`
lists are omitted: no embedded handler reads them. -/
def pages : List PageInfo := [
  ⟨"/dashboard", "Dashboard", "Personal career development hub with progress tracking"⟩,
  ⟨"/career-paths", "Career Paths", "Explore career options and industry insights"⟩,
  ⟨"/skills-analysis", "Skills Analysis", "Comprehensive skill assessment and development"⟩,
  ⟨"/resume-builder", "Resume Builder", "AI-powered resume creation and ATS optimization"⟩,
  ⟨"/job-market", "Job Market", "Real-time job market trends and opportunities"⟩,
  ⟨"/mentorship", "Mentorship", "Connect with industry professionals"⟩,
  ⟨"/community", "Community", "Peer collaboration and knowledge sharing"⟩,
  ⟨"/profile", "Profile", "Account management and preferences"⟩,
  ⟨"/ats", "ATS Analysis", "Resume ATS compatibility checking"⟩]

structure OptItem where
  id : String
  text : String
  description : Option String := none

/-- One chatbot reply dict: `none` in an optional field models an absent key. -/
structure CBResponse where
  rtype : String
  message : String
  options : Option (List OptItem) := none
  page : Option String := none
  confidence : Nat := 100
  follow_up_options : Option (List OptItem) := none

def main_menu_options : List OptItem := [
  ⟨"explore_features", "🔍 Explore Platform Features", some "Learn about our career development tools"⟩,
  ⟨"navigate_pages", "🧭 Navigate to Specific Page", some "Quick access to different sections"⟩,
  ⟨"career_help", "💼 Get Career Guidance", some "Personalized career advice"⟩,
  ⟨"quick_actions", "⚡ Quick Actions", some "Popular tasks and features"⟩,
  ⟨"free_text", "💬 Ask Me Anything", some "Type your own question"⟩]

/-- Function `get_main_menu` (chatbot/app.py 191-197). -/
def get_main_menu : CBResponse :=
  { rtype := "options",
    message := "👋 Welcome to Student Advisor Portal! I\x27m your AI career assistant. How can I help you today?",
    options := some main_menu_options,
    confidence := 100 }

/-- Function `handle_navigation_option` (chatbot/app.py 199-216).  Note the unknown-id
branch returns an error dict with NO `follow_up_options` key. -/
def handle_navigation_option (option_id : String) : CBResponse :=
  match navigate_options.find? (fun o => o.id == option_id) with
  | some selected =>
    let pi := pages.find? (fun p => p.path == selected.page)
    { rtype := "navigation",
      message := "🧭 Taking you to **" ++ (match pi with | some p => p.name | none => "page") ++
        "**...\n\n" ++ (match pi with | some p => p.description | none => "Loading..."),
      page := some selected.page,
      confidence := 95,
      follow_up_options := some [⟨"main_menu", "🏠 Main Menu", none⟩,
        ⟨"navigate_pages", "🧭 Go Somewhere Else", none⟩] }
  | none => { rtype := "error", message := "Page not found", confidence := 0 }

/-- Function `handle_option_selection` (chatbot/app.py 218-282). -/
def handle_option_selection (option_id : String) : CBResponse :=
  if option_id = "main_menu" then get_main_menu
  else if option_id = "navigate_pages" then
    { rtype := "options",
      message := "🧭 **Quick Navigation** - Where would you like to go?",
      options := some ((navigate_options.map (fun o => ⟨o.id, o.text, some ("Go to " ++ o.text)⟩))
        ++ [⟨"main_menu", "⬅️ Back to Main Menu", none⟩]),
      confidence := 100 }
  else if ("go_".data).isPrefixOf option_id.data then handle_navigation_option option_id
  else if option_id = "explore_features" then
    { rtype := "options",
      message := "🔍 **Platform Features** - What would you like to explore?",
      options := some [⟨"feature_career", "🎯 Career Development Tools", some "Career planning and guidance"⟩,
        ⟨"feature_analysis", "📊 Analysis Tools", some "Skills and resume analysis"⟩,
        ⟨"feature_networking", "🤝 Networking Tools", some "Mentorship and community"⟩,
        ⟨"main_menu", "⬅️ Back to Main Menu", none⟩],
      confidence := 98 }
  else if option_id = "career_help" then
    { rtype := "advice",
      message := "💼 **Career Guidance Available:**\n\n• **Career Planning** - Set goals and create roadmaps\n• **Skill Development** - Identify gaps and learning paths\n• **Job Search** - Market insights and opportunities\n• **Resume Optimization** - ATS-friendly resume building\n• **Interview Prep** - Practice and feedback\n\nWhat specific area would you like help with?",
      confidence := 95,
      follow_up_options := some [⟨"go_career_paths", "🛤️ Explore Careers", none⟩,
        ⟨"go_skills", "🎯 Analyze Skills", none⟩,
        ⟨"go_resume", "📄 Build Resume", none⟩,
        ⟨"main_menu", "🏠 Main Menu", none⟩] }
  else if option_id = "quick_actions" then
    { rtype := "options",
      message := "⚡ **Quick Actions** - Popular features:",
      options := some [⟨"go_skills", "🎯 Skills Assessment", some "Evaluate your abilities"⟩,
        ⟨"go_ats", "📊 Check Resume ATS", some "ATS compatibility check"⟩,
        ⟨"go_jobs", "💼 Browse Jobs", some "Current opportunities"⟩,
        ⟨"go_dashboard", "📈 View Progress", some "Your career dashboard"⟩,
        ⟨"main_menu", "⬅️ Back to Main Menu", none⟩],
      confidence := 100 }
  else
    { rtype := "error",
      message := "I didn\x27t understand that option. Let me show you the main menu.",
      confidence := 0,
      follow_up_options := some [⟨"main_menu", "🏠 Main Menu", none⟩] }

/-- Does the `follow_up_options` list of a reply include an option with id
`main_menu`? -/
def hasMainMenuFollowUp (r : CBResponse) : Bool :=
  match r.follow_up_options with
  | some opts => opts.any (fun o => o.id == "main_menu")
  | none => false

/-- The option ids `handle_option_selection` dispatches to a fixed handler
(other than the `go_` table lookup). -/
def handledIds : List String :=
  ["main_menu", "navigate_pages", "explore_features", "career_help", "quick_actions"]

def navIds : List String := navigate_options.map (·.id)

/-! ## Mentor service (src/mentor/app.py) -/

/-- Keyword table of `should_use_tools` (mentor/app.py 117-122). -/
def tool_keywords : List (List Char) :=
  ["search".data, "find".data, "lookup".data, "job".data, "career".data,
   "position".data, "role".data, "wellness".data, "stress".data, "anxiety".data,
   "mental health".data, "calm".data, "calendar".data, "schedule".data,
   "meeting".data, "appointment".data, "invite".data, "web".data,
   "internet".data, "online".data, "latest".data, "current".data, "trend".data]

/-- Simple-question table of `should_use_tools` (mentor/app.py 132-135). -/
def simple_questions : List (List Char) :=
  ["how are you".data, "what is".data, "who is".data, "when is".data,
   "where is".data, "why".data, "explain".data, "tell me about".data,
   "define".data, "describe".data]

/-- Function `should_use_tools` (mentor/app.py 115-141), with the control
flow of the source kept: a keyword hit returns `true` at once; the
simple-question loop returns `false`; the fallthrough returns `false`. -/
def should_use_tools (message : List Char) : Bool :=
  let message_lower := message.map Char.toLower
  if tool_keywords.any (fun k => containsSub k message_lower) then true
  else if simple_questions.any (fun q => q.isPrefixOf message_lower) then false
  else false

structure MChatResp where
  response : List Char
  status : List Char

/-- Function `get_fallback_response` (mentor/app.py 143-158): one plain
completion call with the system prompt; an exception from the call is caught
and turned into an apology string, so this function never raises. -/
def get_fallback_response (oracle : Except (List Char) (List Char)) : List Char :=
  match oracle with
  | .ok content => content
  | .error e =>
    "I apologize, but I\x27m having trouble processing your question right now. Error: ".data ++ e

inductive MOutcome where
  | resp (r : MChatResp)
  | httpError (code : Nat)

/-- Endpoint `chat` (mentor/app.py 186-260).  `toolOutcome` abstracts the
entire tool path (mentor/app.py 200-239): `.ok r` is its returned response,
`.error e` is any exception raised at any of its stages (tool lookup miss is
not an exception there, but a malformed-arguments `json.loads` failure, a
tool `invoke` exception or an API error is).  `fallbackOracle` is the outcome
of the plain completion call `get_fallback_response` makes.  The second
component counts the plain-completion (fallback) calls made; the calls inside
the tool path live behind `toolOutcome` and are not counted.

For an empty message the source raises `HTTPException(400)` inside its own
`try`, and the blanket `except Exception` at line 251 catches it and calls
`get_fallback_response`; the nested `except` at line 256 is unreachable
because `get_fallback_response` never raises. -/
def mentor_chat (apiKeySet : Bool) (message : List Char)
    (toolOutcome : Except (List Char) MChatResp)
    (fallbackOracle : Except (List Char) (List Char)) : MOutcome × Nat :=
  if !apiKeySet then (.httpError 500, 0)
  else if message.isEmpty then
    (.resp ⟨get_fallback_response fallbackOracle, "success".data⟩, 1)
  else if should_use_tools message then
    match toolOutcome with
    | .ok r => (.resp r, 0)
    | .error _ => (.resp ⟨get_fallback_response fallbackOracle, "success".data⟩, 1)
  else (.resp ⟨get_fallback_response fallbackOracle, "success".data⟩, 1)

/-! ## MCQ generator service (src/question/app.py) -/

inductive MCQOutcome where
  | ok (quiz : Json) (warnings : List (Nat × Nat))
  | parseError (excerpt : List Char)
  | generationError

/-- Python `len()` over a parsed JSON value (`TypeError`, i.e. `none`, on
numbers, booleans, null). -/
def pyLen : Json → Option Nat
  | .arr xs => some xs.length
  | .obj kvs => some kvs.length
  | .str s => some s.length
  | _ => none

/-- Method `MCQGeneratorAgent.generate_mcqs` (question/app.py 70-146) after
the completion call: fence cleanup, `json.loads`, `"questions" in quiz_data`
check (a miss raises `ValueError`, caught by the generic `except Exception`
as is a `len()` `TypeError` or an API error: all become the 500
"Quiz generation failed" reply, `generationError` here), count-mismatch
warning (`warnings` records the `(requested, got)` pair printed), and the
data returned AS-IS.  A `json.loads` failure becomes the 500 reply carrying
`raw_text[:500]` (`parseError`).  Membership `"questions" in x` on a
non-dict either raises or, when it succeeds (list/str), the following
subscript `x["questions"]` raises `TypeError`: both ways end in the generic
handler, so every non-object parse result is `generationError`. -/
def generate_mcqs (num_questions : Nat) (reply : Except (List Char) (List Char)) : MCQOutcome :=
  match reply with
  | .error _ => .generationError
  | .ok raw =>
    match jsonParse (mcqStrip raw) with
    | none => .parseError (raw.take 500)
    | some data =>
      match data with
      | .obj kvs =>
        (match lookupAssoc kvs "questions".data with
         | none => .generationError
         | some q =>
           match pyLen q with
           | none => .generationError
           | some got =>
             .ok (.obj kvs) (if got ≠ num_questions then [(num_questions, got)] else []))
      | _ => .generationError

/-- A well-formed options object: exactly the four keys A, B, C, D. -/
def isABCDOptions : Json → Bool
  | .obj os =>
    os.length == 4 && (lookupAssoc os "A".data).isSome && (lookupAssoc os "B".data).isSome
      && (lookupAssoc os "C".data).isSome && (lookupAssoc os "D".data).isSome
  | _ => false

def isValidAnswer : Option Json → Bool
  | some (.str a) => a == "A".data || a == "B".data || a == "C".data || a == "D".data
  | _ => false

def isWellFormedQuestion : Json → Bool
  | .obj kvs =>
    (match lookupAssoc kvs "options".data with
     | some o => isABCDOptions o
     | none => false) && isValidAnswer (lookupAssoc kvs "correct_answer".data)
  | _ => false

/-- A well-formed model reply for `n` requested questions, as the prompt
schema (question/app.py 87-113) demands of the parts the claims inspect:
an object whose `questions` field is an array of `n` well-formed questions. -/
def isWellFormedQuiz (n : Nat) : Json → Bool
  | .obj kvs =>
    (match lookupAssoc kvs "questions".data with
     | some (.arr qs) => qs.length == n && qs.all isWellFormedQuestion
     | _ => false)
  | _ => false

/-! ## Resume analysis pipeline (src/resume/resume_parser.py) -/

/-- The result dict of `analyze_resume_pdf`; `none` models an absent key. -/
structure ResumeAnalysis where
  success : Bool
  error : Option (List Char) := none
  parsed_resume : Option Json := none
  scores : Option Json := none
  recommendations : Option Json := none
  text_preview : Option (List Char) := none

/-- One stage of the pipeline (`parse_resume` / `score_resume` /
`recommend_improvements`, resume_parser.py 141-157): one completion call
whose reply goes through `clean_json_response`; an API exception propagates. -/
def resumeStage (reply : Except (List Char) (List Char)) : Except (List Char) Json :=
  match reply with
  | .error e => .error e
  | .ok r => clean_json_response r

/-- Function `analyze_resume_pdf` (resume_parser.py 159-199).  `extracted` is
the outcome of `extract_text_from_pdf` (`.error` carries the formatted
"PDF extraction error: ..." exception text); `oracle i` is the outcome of the
`(i+1)`-th completion call; the second component counts completion calls
made.  Any raised exception is caught at line 195 and becomes
`{success: False, error: str(e)}`; the prompt strings fed to the oracle are
elided. -/
def analyze_resume_pdf (extracted : Except (List Char) (List Char))
    (oracle : Nat → Except (List Char) (List Char)) : ResumeAnalysis × Nat :=
  match extracted with
  | .error e => ({ success := false, error := some e }, 0)
  | .ok resume_text =>
    if (pyStrip resume_text).isEmpty then
      ({ success := false, error := some "No text could be extracted from the PDF".data }, 0)
    else
      match resumeStage (oracle 0) with
      | .error e => ({ success := false, error := some e }, 1)
      | .ok parsed =>
        match resumeStage (oracle 1) with
        | .error e => ({ success := false, error := some e }, 2)
        | .ok scores =>
          match resumeStage (oracle 2) with
          | .error e => ({ success := false, error := some e }, 3)
          | .ok recs =>
            ({ success := true, parsed_resume := some parsed, scores := some scores,
               recommendations := some recs,
               text_preview := some (if 500 < resume_text.length
                 then resume_text.take 500 ++ "...".data else resume_text) }, 3)

/-! ## Career-path recommender (src/skill_recommendation/) -/

/-- The default profile `_parse_student_profile` substitutes on a JSON-parse
failure (career_orchestrator.py 83). -/
def defaultProfile : Json :=
  .obj [("skills".data, .arr []), ("academics".data, .null), ("interests".data, .arr [])]

/-- The fixed fallback suggestion `_generate_career_suggestions` substitutes
on a JSON-parse failure (career_orchestrator.py 110-116). -/
def fallback_suggestion : Json :=
  .obj [("career_name".data, .str "General Career Suggestion".data),
        ("required_skills".data,
         .arr [.str "Communication".data, .str "Problem-solving".data, .str "Adaptability".data]),
        ("reasoning".data,
         .str "Based on your profile, these foundational skills will help in many career paths.".data)]

/-- Method `CareerOrchestrator._parse_student_profile`
(career_orchestrator.py 60-83): the completion call is OUTSIDE the `try`, so
an API exception propagates; only the fence-strip + `json.loads` is guarded,
and its failure yields the default profile. -/
def parse_student_profile (reply : Except (List Char) (List Char)) : Except (List Char) Json :=
  match reply with
  | .error e => .error e
  | .ok response =>
    match jsonParse (orchStrip response) with
    | some j => .ok j
    | none => .ok defaultProfile

/-- Method `CareerOrchestrator._generate_career_suggestions`
(career_orchestrator.py 85-116): same structure, with the one-element
hardcoded fallback list on parse failure. -/
def generate_career_suggestions (reply : Except (List Char) (List Char)) : Except (List Char) Json :=
  match reply with
  | .error e => .error e
  | .ok response =>
    match jsonParse (orchStrip response) with
    | some j => .ok j
    | none => .ok (.arr [fallback_suggestion])

/-- Can Python evaluate a comma `join` over this value of `d.get(key, [])`?
A missing key defaults to `[]`; a list joins when every element is a string;
a string joins over its characters; anything else raises `TypeError`. -/
def joinable : Option Json → Bool
  | none => true
  | some (.arr xs) => xs.all (fun x => match x with | .str _ => true | _ => false)
  | some (.str _) => true
  | some _ => false

/-- Method `CareerOrchestrator._generate_explanation`
(career_orchestrator.py 118-131).  The prompt text itself is elided (the
oracle stands for the completion call); what is modelled is which inputs make
the f-string construction raise, in evaluation order:
`recommendation["career_name"]` (subscript on a non-dict or a missing key),
`student_profile.get("skills", [])` joined (`.get` needs a dict;
the join needs string elements), `recommendation.get("required_skills", [])`
joined. -/
def generate_explanation (item profile : Json) (reply : Except (List Char) (List Char)) :
    Except (List Char) (List Char) :=
  match item with
  | .obj kvs =>
    (match lookupAssoc kvs "career_name".data with
     | none => .error "KeyError: career_name".data
     | some _ =>
       match profile with
       | .obj pkvs =>
         if joinable (lookupAssoc pkvs "skills".data) then
           if joinable (lookupAssoc kvs "required_skills".data) then reply
           else .error "TypeError: join".data
         else .error "TypeError: join".data
       | _ => .error "AttributeError: get".data)
  | _ => .error "TypeError: subscript".data

/-- What Python iteration over a parsed JSON value yields: the elements of a
list, the keys of a dict, the characters of a string; numbers, booleans and
null are not iterable. -/
def pyIterItems : Json → Option (List Json)
  | .arr xs => some xs
  | .obj kvs => some (kvs.map (fun p => .str p.1))
  | .str s => some (s.map (fun c => .str [c]))
  | _ => none

/-- Python `s["explanation"] = v` applied to an iterated item (meaningful
only for dict items; the non-dict iterated items always fail earlier, inside
`_generate_explanation`). -/
def jSetKey (j : Json) (k : List Char) (v : Json) : Json :=
  match j with
  | .obj kvs => .obj (setAssoc kvs k v)
  | other => other

/-- The explanation loop of `CareerOrchestrator.run`
(career_orchestrator.py 141-142): one completion call per suggestion, in
order, starting at oracle index `i`; the count is the number of calls made
before returning or raising. -/
def addExplanations (oracle : Nat → Except (List Char) (List Char)) (profile : Json) :
    Nat → List Json → Except (List Char) (List Json) × Nat
  | _, [] => (.ok [], 0)
  | i, item :: rest =>
    match generate_explanation item profile (oracle i) with
    | .error e => (.error e, 1)
    | .ok expl =>
      match addExplanations oracle profile (i + 1) rest with
      | (.error e, n) => (.error e, n + 1)
      | (.ok items, n) => (.ok (jSetKey item "explanation".data (.str expl) :: items), n + 1)

/-- Method `CareerOrchestrator.run` (career_orchestrator.py 133-144).
`oracle i` is the outcome of the `(i+1)`-th completion call of the request
(0: profile parse, 1: career suggestions, 2...: one per suggestion); the
second component counts completion calls made.  Iterating a non-list
`json.loads` result follows Python semantics via `pyIterItems`; a dict or
string iterates to non-dict items that raise inside `_generate_explanation`
unless the iteration is empty, in which case the unchanged value is
returned. -/
def orchRun (oracle : Nat → Except (List Char) (List Char)) :
    Except (List Char) Json × Nat :=
  match parse_student_profile (oracle 0) with
  | .error e => (.error e, 1)
  | .ok profile =>
    match generate_career_suggestions (oracle 1) with
    | .error e => (.error e, 2)
    | .ok sugs =>
      match pyIterItems sugs with
      | none => (.error "TypeError: not iterable".data, 2)
      | some items =>
        match addExplanations oracle profile 2 items with
        | (.error e, n) => (.error e, n + 2)
        | (.ok items2, n) =>
          (match sugs with
           | .arr _ => (.ok (.arr items2), n + 2)
           | other => (.ok other, n + 2))

/-- Method `ResumeParser.extract` (career_orchestrator.py 152-161): on any
extraction exception it RETURNS the formatted error string instead of
raising. -/
def resumeExtract (raw : Except (List Char) (List Char)) : List Char :=
  match raw with
  | .ok t => pyStrip t
  | .error e => "Error extracting resume: ".data ++ e

/-- Endpoint `analyze_resume` (skill_recommendation/app.py 49-68): saves the
upload (elided), extracts text via `ResumeParser.extract`, runs the full
orchestration on whatever string that produced, and returns the 500-char
preview plus the recommendations; its `except` turns a raised exception into
an `{"error": ...}` envelope (`.error` here).  The second component counts
the completion calls made. -/
def skill_analyze_resume (raw : Except (List Char) (List Char))
    (oracle : Nat → Except (List Char) (List Char)) :
    Except (List Char) (List Char × Json) × Nat :=
  let resume_text := resumeExtract raw
  match orchRun oracle with
  | (.error e, n) => (.error e, n)
  | (.ok recs, n) => (.ok (resume_text.take 500, recs), n)

/-! ## Claim-side predicates and concrete test fixtures -/

/-- Shape of the parsed profile that lets `_generate_explanation` build its
prompt: a dict whose `skills` entry (a missing key defaults to the empty
list) joins. -/
def profileExplainable : Json → Bool
  | .obj pkvs => joinable (lookupAssoc pkvs "skills".data)
  | _ => false

/-- One well-formed MCQ question as JSON text (only the fields the claims
inspect). -/
def mcqQuestionText : List Char :=
  "\x7b\"options\":\x7b\"A\":\"a\",\"B\":\"b\",\"C\":\"c\",\"D\":\"d\"\x7d,\"correct_answer\":\"A\"\x7d".data

/-- A fenced model reply carrying exactly five well-formed questions. -/
def mcqFiveRaw : List Char :=
  "```json\n\x7b\"questions\":[".data ++ mcqQuestionText ++ ",".data ++ mcqQuestionText
    ++ ",".data ++ mcqQuestionText ++ ",".data ++ mcqQuestionText ++ ",".data
    ++ mcqQuestionText ++ "]\x7d\n```".data

/-- A fenced model reply carrying only two questions. -/
def mcqTwoRaw : List Char :=
  "```json\n\x7b\"questions\":[".data ++ mcqQuestionText ++ ",".data ++ mcqQuestionText
    ++ "]\x7d\n```".data

def mcqQuestionJson : Json :=
  .obj [("options".data, .obj [("A".data, .str "a".data), ("B".data, .str "b".data),
        ("C".data, .str "c".data), ("D".data, .str "d".data)]),
        ("correct_answer".data, .str "A".data)]

def mcqFiveData : Json := .obj [("questions".data,
  .arr [mcqQuestionJson, mcqQuestionJson, mcqQuestionJson, mcqQuestionJson, mcqQuestionJson])]

def mcqTwoData : Json := .obj [("questions".data, .arr [mcqQuestionJson, mcqQuestionJson])]

/-! ## Lemmas about the string primitives -/
theorem lstrip_idem (l : List Char) : lstrip (lstrip l) = lstrip l := by
  induction l with
  | nil => rfl
  | cons c cs ih =>
    by_cases h : isWsChar c
    · simp [lstrip, h, ih]
    · simp [lstrip, h]

theorem lstrip_suffix (l : List Char) : lstrip l <:+ l := by
  induction l with
  | nil => exact ⟨[], rfl⟩
  | cons c cs ih =>
    by_cases h : isWsChar c
    · simp only [lstrip, h, if_pos]
      obtain ⟨t, ht⟩ := ih
      exact ⟨c :: t, by simp [ht]⟩
    · simp only [lstrip, h, if_neg, Bool.false_eq_true, not_false_iff]
      exact ⟨[], rfl⟩

theorem rstrip_prefixP (l : List Char) : rstrip l <+: l := by
  induction l with
  | nil => exact ⟨[], rfl⟩
  | cons c cs ih =>
    simp only [rstrip]
    by_cases h : (rstrip cs).isEmpty
    · simp only [h, if_pos]
      by_cases hw : isWsChar c
      · simp only [hw, if_pos]; exact ⟨c :: cs, rfl⟩
      · simp only [hw, if_neg, Bool.false_eq_true, not_false_iff]
        exact ⟨cs, rfl⟩
    · simp only [h, if_neg, Bool.false_eq_true, not_false_iff]
      obtain ⟨t, ht⟩ := ih
      exact ⟨t, by simp [ht]⟩

theorem rstrip_idem (l : List Char) : rstrip (rstrip l) = rstrip l := by
  induction l with
  | nil => rfl
  | cons c cs ih =>
    simp only [rstrip]
    by_cases h : (rstrip cs).isEmpty
    · simp only [h, if_pos]
      by_cases hw : isWsChar c
      · simp [hw, rstrip]
      · simp [rstrip, hw]
    · simp only [h, if_neg]
      have hne : rstrip cs ≠ [] := by
        intro hc; rw [hc] at h; exact h rfl
      simp only [rstrip, ih, h, if_neg]

theorem lstrip_cons_head {c : Char} {cs : List Char} (h : isWsChar c = false) :
    lstrip (c :: cs) = c :: cs := by
  simp [lstrip, h]

/-- A nonempty result of `lstrip` starts with a non-whitespace character. -/
theorem lstrip_head_not_ws (l : List Char) {c : Char} {cs : List Char}
    (h : lstrip l = c :: cs) : isWsChar c = false := by
  induction l with
  | nil => simp [lstrip] at h
  | cons a as ih =>
    by_cases hw : isWsChar a = true
    · rw [lstrip, if_pos hw] at h
      exact ih h
    · rw [lstrip, if_neg hw] at h
      injection h with h1 _
      subst h1
      exact Bool.not_eq_true _ ▸ hw

theorem lstrip_of_rstrip_of_lstripped (l : List Char) (h : lstrip l = l) :
    lstrip (rstrip l) = rstrip l := by
  cases l with
  | nil => rfl
  | cons c cs =>
    have hw : isWsChar c = false := lstrip_head_not_ws (c :: cs) h
    obtain ⟨t, ht⟩ := rstrip_prefixP (c :: cs)
    cases hr : rstrip (c :: cs) with
    | nil => rfl
    | cons d ds =>
      have : d = c := by
        rw [hr] at ht
        exact (List.cons.injEq d (ds ++ t) c cs ▸ ht).1
      rw [this]
      exact lstrip_cons_head hw

theorem pyStrip_idem (l : List Char) : pyStrip (pyStrip l) = pyStrip l := by
  unfold pyStrip
  rw [lstrip_of_rstrip_of_lstripped (lstrip l) (lstrip_idem l), rstrip_idem]

/-- Lemma: `pyStrip` yields a contiguous piece of its input. -/
theorem pyStrip_infixP (l : List Char) : pyStrip l <:+: l := by
  obtain ⟨s, hs⟩ := rstrip_prefixP (lstrip l)
  obtain ⟨t, ht⟩ := lstrip_suffix l
  exact ⟨t, s, by rw [pyStrip, List.append_assoc, hs, ht]⟩

/-! ## Bool-level substring tests related to their propositional forms -/

theorem isPrefixOf_correct (p l : List Char) : p.isPrefixOf l = true ↔ p <+: l := by
  induction p generalizing l with
  | nil => simp [List.isPrefixOf]
  | cons a as ih =>
    cases l with
    | nil =>
      simp only [List.isPrefixOf, Bool.false_eq_true, false_iff]
      rintro ⟨t, ht⟩
      simp at ht
    | cons b bs =>
      simp only [List.isPrefixOf, Bool.and_eq_true, beq_iff_eq, ih]
      constructor
      · rintro ⟨rfl, t, rfl⟩
        exact ⟨t, rfl⟩
      · rintro ⟨t, ht⟩
        injection ht with h1 h2
        exact ⟨h1, t, h2⟩

theorem rev_prefix_iff (p l : List Char) : p.reverse <+: l.reverse ↔ p <:+ l := by
  constructor
  · rintro ⟨t, ht⟩
    refine ⟨t.reverse, ?_⟩
    have := congrArg List.reverse ht
    simpa using this
  · rintro ⟨t, rfl⟩
    exact ⟨t.reverse, by simp⟩

theorem isSuffixOf_correct (p l : List Char) : p.isSuffixOf l = true ↔ p <:+ l := by
  rw [List.isSuffixOf, isPrefixOf_correct, rev_prefix_iff]

theorem containsSub_correct (n l : List Char) : containsSub n l = true ↔ n <:+: l := by
  induction l with
  | nil =>
    simp only [containsSub, List.isEmpty_iff]
    constructor
    · rintro rfl
      exact ⟨[], [], rfl⟩
    · rintro ⟨s, t, h⟩
      simpa using List.append_eq_nil.mp ((List.append_eq_nil.mp h).1) |>.2
  | cons c t ih =>
    simp only [containsSub, Bool.or_eq_true, isPrefixOf_correct, ih]
    rw [List.infix_cons_iff]

theorem sub_trans_pp {a b c : List Char} (h1 : a <+: b) (h2 : b <+: c) : a <+: c := by
  obtain ⟨s, rfl⟩ := h1
  obtain ⟨t, rfl⟩ := h2
  exact ⟨s ++ t, by simp⟩

theorem infix_of_pre {a b : List Char} (h : a <+: b) : a <:+: b := by
  obtain ⟨t, rfl⟩ := h
  exact ⟨[], t, rfl⟩

theorem infix_of_suf {a b : List Char} (h : a <:+ b) : a <:+: b := by
  obtain ⟨s, rfl⟩ := h
  exact ⟨s, [], by simp⟩

theorem infix_trans {a b c : List Char} (h1 : a <:+: b) (h2 : b <:+: c) : a <:+: c := by
  obtain ⟨s, t, rfl⟩ := h1
  obtain ⟨u, v, rfl⟩ := h2
  exact ⟨u ++ s, t ++ v, by simp⟩

/-! ## No-fence characterizations of the normalizers -/

theorem not_in_of_containsSub_false {n x : List Char} (h : containsSub n x = false) :
    ¬ n <:+: x := by
  intro hi
  rw [(containsSub_correct n x).mpr hi] at h
  simp at h

theorem midStripResume_no_fence {x : List Char} (h : containsSub "```".data x = false) :
    midStripResume x = pyStrip x := by
  have hnf : ¬ "```".data <:+: pyStrip x := fun hi =>
    not_in_of_containsSub_false h (infix_trans hi (pyStrip_infixP x))
  have hp1 : ("```json".data).isPrefixOf (pyStrip x) = false := by
    cases hb : ("```json".data).isPrefixOf (pyStrip x)
    · rfl
    · exact absurd (infix_of_pre (sub_trans_pp
        ((isPrefixOf_correct "```".data "```json".data).mp (by rfl))
        ((isPrefixOf_correct _ _).mp hb))) hnf
  have hp2 : ("```".data).isPrefixOf (pyStrip x) = false := by
    cases hb : ("```".data).isPrefixOf (pyStrip x)
    · rfl
    · exact absurd (infix_of_pre ((isPrefixOf_correct _ _).mp hb)) hnf
  have hs1 : ("```".data).isSuffixOf (pyStrip x) = false := by
    cases hb : ("```".data).isSuffixOf (pyStrip x)
    · rfl
    · exact absurd (infix_of_suf ((isSuffixOf_correct _ _).mp hb)) hnf
  simp only [midStripResume, hp1, hp2, hs1, Bool.false_eq_true, if_false]

theorem cleanResumeStrip_no_fence {x : List Char} (h : containsSub "```".data x = false) :
    cleanResumeStrip x = pyStrip x := by
  rw [cleanResumeStrip, midStripResume_no_fence h, pyStrip_idem]

theorem mcqStrip_no_fence {x : List Char} (h : containsSub "```".data x = false) :
    mcqStrip x = pyStrip x := by
  have hnf : ¬ "```".data <:+: x := not_in_of_containsSub_false h
  have hp1 : ("```json".data).isPrefixOf x = false := by
    cases hb : ("```json".data).isPrefixOf x
    · rfl
    · exact absurd (infix_of_pre (sub_trans_pp
        ((isPrefixOf_correct "```".data "```json".data).mp (by rfl))
        ((isPrefixOf_correct _ _).mp hb))) hnf
  have hp2 : ("```".data).isPrefixOf x = false := by
    cases hb : ("```".data).isPrefixOf x
    · rfl
    · exact absurd (infix_of_pre ((isPrefixOf_correct _ _).mp hb)) hnf
  have hs1 : ("```".data).isSuffixOf x = false := by
    cases hb : ("```".data).isSuffixOf x
    · rfl
    · exact absurd (infix_of_suf ((isSuffixOf_correct _ _).mp hb)) hnf
  have hs2 : ("```\n".data).isSuffixOf x = false := by
    cases hb : ("```\n".data).isSuffixOf x
    · rfl
    · exact absurd (infix_trans ((containsSub_correct "```".data "```\n".data).mp (by rfl))
        (infix_of_suf ((isSuffixOf_correct _ _).mp hb))) hnf
  simp only [mcqStrip, hp1, hp2, hs1, hs2, Bool.false_eq_true, if_false]

theorem pyStrip_keeps_no_fence {x : List Char} (h : containsSub "```".data x = false) :
    containsSub "```".data (pyStrip x) = false := by
  cases hc : containsSub "```".data (pyStrip x)
  · rfl
  · exact absurd (infix_trans ((containsSub_correct _ _).mp hc) (pyStrip_infixP x))
      (not_in_of_containsSub_false h)

/-! ## The claims -/

/-- C1, counterexample to the claim as stated: for the unknown `go_`-prefixed
option id `go_nowhere`, `handle_option_selection` does return an error-type
response, but its follow-up options do NOT include a `main_menu` option
(the `Page not found` dict carries no `follow_up_options` key at all). -/
theorem C1_claim_counterexample :
    (handle_option_selection "go_nowhere").rtype = "error" ∧
    (handle_option_selection "go_nowhere").follow_up_options = none ∧
    hasMainMenuFollowUp (handle_option_selection "go_nowhere") = false :=
  ⟨rfl, rfl, rfl⟩

/-- C1, amended: for every option id outside the fixed handlers and outside
the navigation table, `handle_option_selection` returns an error-type
response; when the id does not start with `go_` the follow-up options include
a `main_menu` option, but when it does start with `go_` the error response
carries no follow-up options at all. -/
theorem C1_unknown_option_routing (option_id : String)
    (h1 : option_id ∉ handledIds) (h2 : option_id ∉ navIds) :
    (handle_option_selection option_id).rtype = "error" ∧
    (("go_".data).isPrefixOf option_id.data = false →
      hasMainMenuFollowUp (handle_option_selection option_id) = true) ∧
    (("go_".data).isPrefixOf option_id.data = true →
      (handle_option_selection option_id).follow_up_options = none) := by
  simp only [handledIds, List.mem_cons, List.not_mem_nil, or_false, not_or] at h1
  obtain ⟨hm, hnav, hex, hch, hqa⟩ := h1
  simp only [navIds, navigate_options, List.map_cons, List.map_nil, List.mem_cons,
    List.not_mem_nil, or_false, not_or] at h2
  obtain ⟨g1, g2, g3, g4, g5, g6, g7, g8, g9⟩ := h2
  have hfind : navigate_options.find? (fun o => o.id == option_id) = none := by
    rw [List.find?_eq_none]
    intro x hx
    simp only [navigate_options, List.mem_cons, List.not_mem_nil, or_false] at hx
    rcases hx with rfl | rfl | rfl | rfl | rfl | rfl | rfl | rfl | rfl <;>
      simp only [beq_iff_eq] <;>
      first
        | exact fun hh => g1 hh.symm
        | exact fun hh => g2 hh.symm
        | exact fun hh => g3 hh.symm
        | exact fun hh => g4 hh.symm
        | exact fun hh => g5 hh.symm
        | exact fun hh => g6 hh.symm
        | exact fun hh => g7 hh.symm
        | exact fun hh => g8 hh.symm
        | exact fun hh => g9 hh.symm
  by_cases hgo : ("go_".data).isPrefixOf option_id.data = true
  · refine ⟨?_, ?_, ?_⟩
    · rw [handle_option_selection, if_neg hm, if_neg hnav, if_pos hgo,
        handle_navigation_option, hfind]
    · intro hfalse
      rw [hgo] at hfalse
      simp at hfalse
    · intro _
      rw [handle_option_selection, if_neg hm, if_neg hnav, if_pos hgo,
        handle_navigation_option, hfind]
  · have hgo2 : ("go_".data).isPrefixOf option_id.data = false := by
      revert hgo
      cases ("go_".data).isPrefixOf option_id.data <;> simp
    refine ⟨?_, ?_, ?_⟩
    · rw [handle_option_selection, if_neg hm, if_neg hnav, if_neg hgo,
        if_neg hex, if_neg hch, if_neg hqa]
    · intro _
      rw [handle_option_selection, if_neg hm, if_neg hnav, if_neg hgo,
        if_neg hex, if_neg hch, if_neg hqa]
      rfl
    · intro htrue
      exact absurd htrue hgo

/-- C1, witness: the concrete unknown id `bogus_option` satisfies the
hypotheses and gets the error response with a `main_menu` follow-up. -/
theorem C1_unknown_option_routing_witness :
    ("bogus_option" : String) ∉ handledIds ∧ ("bogus_option" : String) ∉ navIds ∧
    (handle_option_selection "bogus_option").rtype = "error" ∧
    hasMainMenuFollowUp (handle_option_selection "bogus_option") = true :=
  ⟨by decide, by decide,
   (C1_unknown_option_routing "bogus_option" (by decide) (by decide)).1,
   (C1_unknown_option_routing "bogus_option" (by decide) (by decide)).2.1 (by rfl)⟩

/-- C2, counterexample to the claim as stated: the career-orchestrator
normalizer does NOT parse a valid JSON body wrapped in bare ``` fences — it
strips only the trailing fence, leaves the leading bare fence in place, and
the parse fails. -/
theorem C2_claim_counterexample :
    jsonParse (orchStrip "```\n\x7b\"a\": 1\x7d\n```".data) = none ∧
    orchStrip "```\n\x7b\"a\": 1\x7d\n```".data = "```\n\x7b\"a\": 1\x7d".data :=
  ⟨rfl, rfl⟩

/-- C2, amended: a valid JSON body wrapped in bare ``` fences is parsed
successfully by the resume normalizer and the MCQ normalizer; the
career-orchestrator normalizer strips only a leading ```json marker, so the
same bare-fenced body fails to parse there and sends both orchestrator
callers to their default/fallback values (a ```json-tagged wrapping does
parse for the orchestrator). -/
theorem C2_normalizer_fence_handling :
    jsonParse (cleanResumeStrip "```\n\x7b\"a\": 1\x7d\n```".data)
      = some (.obj [("a".data, .num 1)]) ∧
    jsonParse (mcqStrip "```\n\x7b\"a\": 1\x7d\n```".data)
      = some (.obj [("a".data, .num 1)]) ∧
    jsonParse (orchStrip "```json\n\x7b\"a\": 1\x7d\n```".data)
      = some (.obj [("a".data, .num 1)]) ∧
    jsonParse (orchStrip "```\n\x7b\"a\": 1\x7d\n```".data) = none ∧
    parse_student_profile (.ok "```\n\x7b\"a\": 1\x7d\n```".data) = .ok defaultProfile ∧
    generate_career_suggestions (.ok "```\n\x7b\"a\": 1\x7d\n```".data)
      = .ok (.arr [fallback_suggestion]) :=
  ⟨rfl, rfl, rfl, rfl, rfl, rfl⟩

/-- C3: on any text containing no ``` fence marker, the fence-stripping of
the resume normalizer and of the MCQ normalizer is idempotent; and the JSON
object with field `a = 1` round-trips through both normalizers unchanged,
with and without a ```json fence wrapping. -/
theorem C3_fence_strip_idempotent_roundtrip :
    (∀ x : List Char, containsSub "```".data x = false →
      cleanResumeStrip (cleanResumeStrip x) = cleanResumeStrip x) ∧
    (∀ x : List Char, containsSub "```".data x = false →
      mcqStrip (mcqStrip x) = mcqStrip x) ∧
    jsonParse (cleanResumeStrip "\x7b\"a\":1\x7d".data) = some (.obj [("a".data, .num 1)]) ∧
    jsonParse (cleanResumeStrip "```json\n\x7b\"a\":1\x7d\n```".data)
      = some (.obj [("a".data, .num 1)]) ∧
    jsonParse (mcqStrip "\x7b\"a\":1\x7d".data) = some (.obj [("a".data, .num 1)]) ∧
    jsonParse (mcqStrip "```json\n\x7b\"a\":1\x7d\n```".data)
      = some (.obj [("a".data, .num 1)]) := by
  refine ⟨?_, ?_, rfl, rfl, rfl, rfl⟩
  · intro x h
    rw [cleanResumeStrip_no_fence h, cleanResumeStrip_no_fence (pyStrip_keeps_no_fence h),
      pyStrip_idem]
  · intro x h
    rw [mcqStrip_no_fence h, mcqStrip_no_fence (pyStrip_keeps_no_fence h), pyStrip_idem]

/-- C3, witness: the fence-free text `hello world` instantiates both
idempotence statements. -/
theorem C3_fence_strip_idempotent_roundtrip_witness :
    containsSub "```".data "hello world".data = false ∧
    cleanResumeStrip (cleanResumeStrip "hello world".data) = cleanResumeStrip "hello world".data ∧
    mcqStrip (mcqStrip "hello world".data) = mcqStrip "hello world".data :=
  ⟨by rfl, C3_fence_strip_idempotent_roundtrip.1 "hello world".data (by rfl),
   C3_fence_strip_idempotent_roundtrip.2.1 "hello world".data (by rfl)⟩

/-- C4: `should_use_tools` returns true exactly when the lowercased message
contains one of the fixed tool keywords as a substring (the simple-question
branch never produces true); in particular any message containing
`schedule a meeting` selects the tool path. -/
theorem C4_should_use_tools_keyword_only :
    (∀ m : List Char, should_use_tools m = true ↔
      tool_keywords.any (fun k => containsSub k (m.map Char.toLower)) = true) ∧
    (∀ m : List Char, containsSub "schedule a meeting".data m = true →
      should_use_tools m = true) := by
  constructor
  · intro m
    rw [should_use_tools]
    cases hA : tool_keywords.any (fun k => containsSub k (m.map Char.toLower))
    · cases hB : simple_questions.any (fun q => q.isPrefixOf (m.map Char.toLower)) <;>
        simp [hA, hB]
    · simp [hA]
  · intro m h
    have h1 : "schedule a meeting".data <:+: m := (containsSub_correct _ _).mp h
    have h2 : ("schedule a meeting".data).map Char.toLower <:+: m.map Char.toLower := by
      obtain ⟨s, t, rfl⟩ := h1
      exact ⟨s.map Char.toLower, t.map Char.toLower, by simp⟩
    have h3 : ("schedule a meeting".data).map Char.toLower = "schedule a meeting".data := by
      decide
    rw [h3] at h2
    have h5 : "schedule".data <:+: m.map Char.toLower :=
      infix_trans (infix_of_pre ((isPrefixOf_correct
        "schedule".data "schedule a meeting".data).mp (by rfl))) h2
    have h6 : tool_keywords.any (fun k => containsSub k (m.map Char.toLower)) = true := by
      rw [List.any_eq_true]
      exact ⟨"schedule".data, by decide, (containsSub_correct _ _).mpr h5⟩
    rw [should_use_tools]
    simp [h6]

/-- C4, witness: a concrete message containing `schedule a meeting` takes the
tool path. -/
theorem C4_should_use_tools_keyword_only_witness :
    containsSub "schedule a meeting".data "Please schedule a meeting for Monday".data = true ∧
    should_use_tools "Please schedule a meeting for Monday".data = true :=
  ⟨by rfl, C4_should_use_tools_keyword_only.2 "Please schedule a meeting for Monday".data (by rfl)⟩

/-- C5: for every message on the tool path, if the tool path raises at any
stage, the endpoint returns exactly the content of the fallback plain
completion call with status `success`; the tool exception appears nowhere in
the reply. -/
theorem C5_tool_failure_falls_back (message toolErr content : List Char)
    (h : should_use_tools message = true) :
    mentor_chat true message (.error toolErr) (.ok content) =
      (.resp ⟨content, "success".data⟩, 1) := by
  have hne : message.isEmpty = false := by
    cases message with
    | nil => exact absurd h (by decide)
    | cons c cs => rfl
  simp [mentor_chat, hne, h, get_fallback_response]

/-- C5, witness: a concrete tool-path message whose tool stage raises. -/
theorem C5_tool_failure_falls_back_witness :
    should_use_tools "Can you schedule a meeting with my mentor?".data = true ∧
    mentor_chat true "Can you schedule a meeting with my mentor?".data
      (.error "tool exception".data) (.ok "Here is my advice.".data) =
      (.resp ⟨"Here is my advice.".data, "success".data⟩, 1) :=
  ⟨by rfl, C5_tool_failure_falls_back _ _ _ (by rfl)⟩

/-- C6, evaluating the code at the failing input: with the API key set, an
EMPTY message is not rejected before an outbound call — the endpoint raises
`HTTPException(400)` into its own blanket `except`, which then makes exactly
one outbound plain-completion call and replies with status `success`,
contradicting the claim that no completion-endpoint request occurs. -/
theorem C6_empty_message_still_calls_fallback (toolOutcome : Except (List Char) MChatResp)
    (fallbackOracle : Except (List Char) (List Char)) :
    mentor_chat true [] toolOutcome fallbackOracle =
      (.resp ⟨get_fallback_response fallbackOracle, "success".data⟩, 1) := rfl

/-- C7: a well-formed model reply for five requested questions (an object
whose `questions` array holds exactly five questions, each with exactly the
options A, B, C, D and a correct answer among them) is returned as-is with no
warning; and whenever the parsed question count differs from the requested
count, `generate_mcqs` records the warning and still returns the parsed data
as-is. -/
theorem C7_mcq_trust_but_warn :
    (∀ (raw : List Char) (data : Json),
      jsonParse (mcqStrip raw) = some data →
      isWellFormedQuiz 5 data = true →
      generate_mcqs 5 (.ok raw) = .ok data []) ∧
    (∀ (raw : List Char) (kvs : List (List Char × Json)) (qs : List Json) (n : Nat),
      jsonParse (mcqStrip raw) = some (.obj kvs) →
      lookupAssoc kvs "questions".data = some (.arr qs) →
      qs.length ≠ n →
      generate_mcqs n (.ok raw) = .ok (.obj kvs) [(n, qs.length)]) := by
  constructor
  · intro raw data hparse hwf
    cases data with
    | obj kvs =>
      simp only [isWellFormedQuiz] at hwf
      cases hl : lookupAssoc kvs "questions".data with
      | none => rw [hl] at hwf; simp at hwf
      | some q =>
        rw [hl] at hwf
        cases q with
        | arr qs =>
          simp only [Bool.and_eq_true, beq_iff_eq] at hwf
          obtain ⟨hlen, _⟩ := hwf
          simp [generate_mcqs, hparse, hl, pyLen, hlen]
        | null => simp at hwf
        | jbool b => simp at hwf
        | num m => simp at hwf
        | str s => simp at hwf
        | obj kvs2 => simp at hwf
    | null => simp [isWellFormedQuiz] at hwf
    | jbool b => simp [isWellFormedQuiz] at hwf
    | num m => simp [isWellFormedQuiz] at hwf
    | str s => simp [isWellFormedQuiz] at hwf
    | arr es => simp [isWellFormedQuiz] at hwf
  · intro raw kvs qs n hparse hl hne
    simp [generate_mcqs, hparse, hl, pyLen, hne]

set_option maxRecDepth 8192 in
/-- C7, witness: a concrete fenced five-question reply comes back as-is with
no warning, and a concrete two-question reply to a five-question request
comes back as-is with the `(5, 2)` warning. -/
theorem C7_mcq_trust_but_warn_witness :
    jsonParse (mcqStrip mcqFiveRaw) = some mcqFiveData ∧
    isWellFormedQuiz 5 mcqFiveData = true ∧
    generate_mcqs 5 (.ok mcqFiveRaw) = .ok mcqFiveData [] ∧
    generate_mcqs 5 (.ok mcqTwoRaw) = .ok mcqTwoData [(5, 2)] :=
  ⟨by rfl, by rfl,
   C7_mcq_trust_but_warn.1 mcqFiveRaw mcqFiveData (by rfl) (by rfl),
   C7_mcq_trust_but_warn.2 mcqTwoRaw
     [("questions".data, .arr [mcqQuestionJson, mcqQuestionJson])]
     [mcqQuestionJson, mcqQuestionJson] 5 (by rfl) (by rfl) (by decide)⟩

/-- C8: for every PDF whose extracted text is empty or whitespace-only, the
resume pipeline returns `success := false` with the message that no text
could be extracted, and makes zero completion calls. -/
theorem C8_resume_empty_text_no_calls (text : List Char)
    (oracle : Nat → Except (List Char) (List Char))
    (h : (pyStrip text).isEmpty = true) :
    analyze_resume_pdf (.ok text) oracle =
      ({ success := false,
         error := some "No text could be extracted from the PDF".data }, 0) := by
  simp [analyze_resume_pdf, h]

/-- C8, witness: concrete whitespace-only extracted text. -/
theorem C8_resume_empty_text_no_calls_witness :
    (pyStrip "  \n\t ".data).isEmpty = true ∧
    analyze_resume_pdf (.ok "  \n\t ".data) (fun _ => .ok "ignored".data) =
      ({ success := false,
         error := some "No text could be extracted from the PDF".data }, 0) :=
  ⟨by rfl, C8_resume_empty_text_no_calls _ _ (by rfl)⟩

/-- C9: whenever the career-suggestion completion reply is malformed JSON
(and the explanation call succeeds on a usable parsed profile), the
orchestrator returns exactly one suggestion: the fixed fallback whose
`career_name` is `General Career Suggestion`, with the per-suggestion
explanation field appended to it by `run`, after exactly three completion
calls. -/
theorem C9_malformed_suggestions_fixed_fallback
    (oracle : Nat → Except (List Char) (List Char)) (prof : Json) (sugText expl : List Char)
    (h0 : parse_student_profile (oracle 0) = .ok prof)
    (h1 : profileExplainable prof = true)
    (hs : oracle 1 = .ok sugText)
    (h2 : jsonParse (orchStrip sugText) = none)
    (he : oracle 2 = .ok expl) :
    orchRun oracle =
      (.ok (.arr [jSetKey fallback_suggestion "explanation".data (.str expl)]), 3) ∧
    jSetKey fallback_suggestion "explanation".data (.str expl) =
      .obj [("career_name".data, .str "General Career Suggestion".data),
            ("required_skills".data,
             .arr [.str "Communication".data, .str "Problem-solving".data,
                   .str "Adaptability".data]),
            ("reasoning".data,
             .str "Based on your profile, these foundational skills will help in many career paths.".data),
            ("explanation".data, .str expl)] := by
  refine ⟨?_, by rfl⟩
  cases prof with
  | obj pkvs =>
    simp only [profileExplainable] at h1
    have hexp : generate_explanation fallback_suggestion (Json.obj pkvs) (Except.ok expl)
        = Except.ok expl := by
      simp only [generate_explanation, fallback_suggestion, lookupAssoc]
      rw [if_pos h1]
      rfl
    simp [orchRun, h0, generate_career_suggestions, hs, h2, pyIterItems,
      addExplanations, he, hexp]
  | null => simp [profileExplainable] at h1
  | jbool b => simp [profileExplainable] at h1
  | num m => simp [profileExplainable] at h1
  | str s => simp [profileExplainable] at h1
  | arr es => simp [profileExplainable] at h1

/-- C9, witness: concrete oracle replies — an unparseable profile reply (the
default profile steps in), an unparseable suggestion reply, one explanation
text. -/
theorem C9_malformed_suggestions_fixed_fallback_witness :
    jsonParse (orchStrip "oops not json".data) = none ∧
    parse_student_profile (Except.ok "profile text junk".data) = .ok defaultProfile ∧
    profileExplainable defaultProfile = true ∧
    orchRun (fun n => if n == 0 then Except.ok "profile text junk".data
      else if n == 1 then Except.ok "oops not json".data
      else Except.ok "You fit these paths well.".data) =
      (.ok (.arr [jSetKey fallback_suggestion "explanation".data
        (.str "You fit these paths well.".data)]), 3) :=
  ⟨by rfl, by rfl, by rfl,
   (C9_malformed_suggestions_fixed_fallback
     (fun n => if n == 0 then Except.ok "profile text junk".data
       else if n == 1 then Except.ok "oops not json".data
       else Except.ok "You fit these paths well.".data)
     defaultProfile "oops not json".data "You fit these paths well.".data
     (by rfl) (by rfl) (by rfl) (by rfl) (by rfl)).1⟩

/-- C10: when text extraction fails, `ResumeParser.extract` returns the
`Error extracting resume: ...` string instead of raising, the
`/analyze-resume` endpoint feeds that string to the full orchestration as if
it were the resume text, all completion calls of the run happen (at least
the two fixed ones), and no error envelope is returned for the extraction
failure. -/
theorem C10_extraction_error_string_flows_through (errMsg : List Char)
    (oracle : Nat → Except (List Char) (List Char)) (res : Json) (n : Nat)
    (h : orchRun oracle = (.ok res, n)) :
    skill_analyze_resume (.error errMsg) oracle =
      (.ok (("Error extracting resume: ".data ++ errMsg).take 500, res), n) ∧
    2 ≤ n := by
  constructor
  · simp [skill_analyze_resume, h, resumeExtract]
  · rw [orchRun] at h
    repeat' split at h
    all_goals try simp_all
    all_goals omega

/-- C10, witness: a concrete failed extraction with a three-call run; the
endpoint returns the preview of the error string plus the recommendations,
not an error envelope. -/
theorem C10_extraction_error_string_flows_through_witness :
    orchRun (fun n => if n == 0 then Except.ok "bad profile reply".data
      else if n == 1 then Except.ok "bad suggestions reply".data
      else Except.ok "Explained.".data) =
      (.ok (.arr [jSetKey fallback_suggestion "explanation".data (.str "Explained.".data)]), 3) ∧
    skill_analyze_resume (.error "file is corrupt".data)
      (fun n => if n == 0 then Except.ok "bad profile reply".data
        else if n == 1 then Except.ok "bad suggestions reply".data
        else Except.ok "Explained.".data) =
      (.ok (("Error extracting resume: ".data ++ "file is corrupt".data).take 500,
        .arr [jSetKey fallback_suggestion "explanation".data (.str "Explained.".data)]), 3) ∧
    2 ≤ 3 :=
  ⟨by rfl,
   (C10_extraction_error_string_flows_through "file is corrupt".data
     (fun n => if n == 0 then Except.ok "bad profile reply".data
       else if n == 1 then Except.ok "bad suggestions reply".data
       else Except.ok "Explained.".data)
     (.arr [jSetKey fallback_suggestion "explanation".data (.str "Explained.".data)]) 3
     (by rfl)).1,
   (C10_extraction_error_string_flows_through "file is corrupt".data
     (fun n => if n == 0 then Except.ok "bad profile reply".data
       else if n == 1 then Except.ok "bad suggestions reply".data
       else Except.ok "Explained.".data)
     (.arr [jSetKey fallback_suggestion "explanation".data (.str "Explained.".data)]) 3
     (by rfl)).2⟩
